import Mathlib

/-!
Verification of the prometheus-alerts-handler core: alert ingestion
(handler/alertshandler.go), the dispatch registry (processors/registry.go)
and the destination adapters (processors/slack.go, webhook.go, email.go,
pagerduty.go, basicprocessor.go), over a shallow embedding in Lean.

JSON request bodies are modelled structurally; counters and histogram
observations are modelled as explicit deltas in the result of each
operation; the network is modelled as an explicit transmission outcome
parameter; goroutine fan-out with recover is modelled as a per-adapter
run record aggregated by the dispatch operation.
-/

/-- A JSON value, as produced by Go's encoding/json scanner from a
well-formed byte sequence.  Numbers are kept at integer granularity:
no claim distinguishes fractional values. -/
inductive Json where
  | null
  | bool (b : Bool)
  | num (n : Int)
  | str (s : String)
  | arr (elems : List Json)
  | obj (fields : List (String × Json))

/-- String-keyed string map, as decoded into Go's map[string]string.
Represented as an association list kept duplicate-free by insertStr. -/
abbrev StrMap := List (String × String)

/-- Go map indexing m[k]: returns the zero value "" when the key is absent. -/
def mapGet (m : StrMap) (k : String) : String :=
  match m.find? (fun kv => kv.fst == k) with
  | some kv => kv.snd
  | none => ""

/-- Go map lookup with ok flag: v, ok := m[k]. -/
def mapGetOk (m : StrMap) (k : String) : Option String :=
  (m.find? (fun kv => kv.fst == k)).map (fun kv => kv.snd)

/-- Go map assignment m[k] = v: overwrites any previous binding of k. -/
def insertStr (m : StrMap) (k v : String) : StrMap :=
  (m.filter (fun kv => kv.fst != k)) ++ [(k, v)]

/-- Modelled from the spec: the types package (types.Alert) is not in the
source tree, only its callers are.  Fields follow spec sections 3 and 6:
status, labels, annotations, startsAt, endsAt, generatorURL, fingerprint,
all but status/labels/annotations optional, maps normalizing to empty. -/
structure Alert where
  status : String := ""
  labels : StrMap := []
  annotations : StrMap := []
  startsAt : String := ""
  endsAt : String := ""
  generatorURL : String := ""
  fingerprint : String := ""
deriving Repr, DecidableEq

/-- Modelled from the spec: the types package (types.AlertMessage, the
AlertGroup envelope) is not in the source tree.  Fields follow spec
sections 3 and 6: version, groupKey, status, receiver, groupLabels,
commonLabels, alerts. -/
structure AlertMessage where
  version : String := ""
  groupKey : String := ""
  status : String := ""
  receiver : String := ""
  groupLabels : StrMap := []
  commonLabels : StrMap := []
  alerts : List Alert := []
deriving Repr, DecidableEq

/-- Go json.Unmarshal of a JSON value into a string field: a JSON string
sets the field, null leaves the zero value "", anything else is a type
error. -/
def decodeString : Json → Except Unit String
  | .str s => .ok s
  | .null => .ok ""
  | _ => .error ()

/-- Go json.Unmarshal of a JSON value into map[string]string: the value
must be an object (null gives the nil map), and every member value must
decode as a string. -/
def decodeStringMap : Json → Except Unit StrMap
  | .null => .ok []
  | .obj fields =>
    fields.foldlM (fun m kv => do
      let v ← decodeString kv.snd
      pure (insertStr m kv.fst v)) []
  | _ => .error ()

/-- One member of an Alert object: matches the wire keys of the modelled
types.Alert; unknown keys are ignored as Go does.  (Go records a type
error and keeps decoding; since the handler only branches on whether an
error occurred, stopping at the first error is observationally equal.) -/
def decodeAlertField (a : Alert) (k : String) (v : Json) : Except Unit Alert :=
  if k = "status" then do
    let s ← decodeString v
    pure { a with status := s }
  else if k = "labels" then do
    let m ← decodeStringMap v
    pure { a with labels := m }
  else if k = "annotations" then do
    let m ← decodeStringMap v
    pure { a with annotations := m }
  else if k = "startsAt" then do
    let s ← decodeString v
    pure { a with startsAt := s }
  else if k = "endsAt" then do
    let s ← decodeString v
    pure { a with endsAt := s }
  else if k = "generatorURL" then do
    let s ← decodeString v
    pure { a with generatorURL := s }
  else if k = "fingerprint" then do
    let s ← decodeString v
    pure { a with fingerprint := s }
  else
    pure a

/-- Go json.Unmarshal of a JSON value into the modelled types.Alert
struct: the value must be an object (null leaves the zero value). -/
def decodeAlert : Json → Except Unit Alert
  | .null => .ok {}
  | .obj fields => fields.foldlM (fun a kv => decodeAlertField a kv.fst kv.snd) {}
  | _ => .error ()

/-- Go json.Unmarshal of a JSON value into []types.Alert: the value must
be an array (null gives the nil slice) and every element must decode as
an Alert. -/
def decodeAlertList : Json → Except Unit (List Alert)
  | .null => .ok []
  | .arr es => es.mapM decodeAlert
  | _ => .error ()

/-- One member of an AlertMessage object, by wire key. -/
def decodeAlertMessageField (m : AlertMessage) (k : String) (v : Json) :
    Except Unit AlertMessage :=
  if k = "version" then do
    let s ← decodeString v
    pure { m with version := s }
  else if k = "groupKey" then do
    let s ← decodeString v
    pure { m with groupKey := s }
  else if k = "status" then do
    let s ← decodeString v
    pure { m with status := s }
  else if k = "receiver" then do
    let s ← decodeString v
    pure { m with receiver := s }
  else if k = "groupLabels" then do
    let g ← decodeStringMap v
    pure { m with groupLabels := g }
  else if k = "commonLabels" then do
    let g ← decodeStringMap v
    pure { m with commonLabels := g }
  else if k = "alerts" then do
    let as ← decodeAlertList v
    pure { m with alerts := as }
  else
    pure m

/-- Go json.Unmarshal of a JSON value into the modelled types.AlertMessage
struct: the value must be an object (null leaves the zero value). -/
def decodeAlertMessage : Json → Except Unit AlertMessage
  | .null => .ok {}
  | .obj fields =>
    fields.foldlM (fun m kv => decodeAlertMessageField m kv.fst kv.snd) {}
  | _ => .error ()

/-- The JSON bodies respondWithJSON encodes in alertshandler.go: either
the success map with status, message and count, or the error envelope
written by respondWithError with status "error" and the given message. -/
inductive RespBody where
  | success (message : String) (count : Nat)
  | error (message : String)
deriving Repr, DecidableEq

/-- Observable outcome of one call to Handler.ServeHTTP: HTTP status,
response body, the delta added to the AlertsReceived counter, whether
ProcessingDuration.Observe ran, and the alerts passed (in order) to
Registry.ProcessAlert. -/
structure HandlerOutput where
  statusCode : Nat
  body : RespBody
  receivedDelta : Nat
  durationObserved : Bool
  dispatched : List Alert
deriving Repr, DecidableEq

/-- An error response of alertshandler.go: respondWithError plus no
metric or dispatch side effects. -/
def errOutput (code : Nat) (msg : String) : HandlerOutput :=
  ⟨code, .error msg, 0, false, []⟩

/-- The success path of alertshandler.go for a non-empty alert list:
AlertsReceived.Add len, dispatch each alert, observe the duration, 200. -/
def okOutput (as : List Alert) : HandlerOutput :=
  ⟨200, .success "Alerts received and processed" as.length, as.length, true, as⟩

/-- The simple-format branch of Handler.ServeHTTP (alertshandler.go lines
71-99): unmarshal the body as []types.Alert, 400 "Invalid JSON format" on
decode error, 400 "No alerts in request" on an empty list, success
otherwise. -/
def handleArrayPath (j : Json) : HandlerOutput :=
  match decodeAlertList j with
  | .error _ => errOutput 400 "Invalid JSON format"
  | .ok as =>
    if as.length = 0 then errOutput 400 "No alerts in request"
    else okOutput as

/-- Handler.ServeHTTP of handler/alertshandler.go.  The request is given
as its method and the result of reading the body: Except.error models an
io read failure, Except.ok none models bytes that are not well-formed
JSON (json.Unmarshal then fails for both target types, so the code
reaches the simple-format branch and returns its decode error), and
Except.ok (some j) models a body that parses as the JSON value j. -/
def serveHTTP (method : String) (body : Except Unit (Option Json)) : HandlerOutput :=
  if method ≠ "POST" then errOutput 405 "Only POST method is allowed"
  else
    match body with
    | .error _ => errOutput 400 "Error reading request body"
    | .ok none => errOutput 400 "Invalid JSON format"
    | .ok (some j) =>
      match decodeAlertMessage j with
      | .ok msg =>
        if msg.alerts.length > 0 then okOutput msg.alerts
        else handleArrayPath j
      | .error _ => handleArrayPath j

/-!  Registry (processors/registry.go).  An AlertProcessor is the Go
interface with the single method Process(alert); the model abstracts one
implementation as the semantic effect of its Process call: counter
deltas plus whether the call panics. -/

/-- Effect of one AlertProcessor.Process invocation: the deltas it adds
to the AlertsProcessed and AlertsProcessingErrors counters before
returning or panicking, and whether it panics. -/
structure ProcResult where
  processedDelta : Nat := 0
  errorsDelta : Nat := 0
  panicked : Bool := false
deriving Repr, DecidableEq

/-- An adapter as seen by the registry: the Go AlertProcessor interface,
abstracted as the effect its Process call has on a given alert. -/
abbrev AlertProcessor := Alert → ProcResult

/-- The registry's adapter list (the processors slice of the Registry
struct; the RWMutex is concurrency plumbing with no effect on the
result of a single dispatch). -/
abbrev Registry := List AlertProcessor

/-- Registry.Register of processors/registry.go: appends one adapter. -/
def Registry.Register (r : Registry) (p : AlertProcessor) : Registry :=
  r ++ [p]

/-- Outcome of one goroutine body in Registry.ProcessAlert: the adapter
is invoked, and the deferred recover catches any panic (so none escapes
the goroutine) and logs it. -/
structure AdapterRun where
  result : ProcResult
  panicRecovered : Bool
  panicLogged : Bool
  escapedPanic : Bool
deriving Repr, DecidableEq

/-- One goroutine of Registry.ProcessAlert (registry.go lines 45-53):
run p.Process(alert); the deferred func recovers any panic and logs
"Processor panicked".  Nothing else happens at the boundary: in
particular no counter is touched there. -/
def runAdapter (p : AlertProcessor) (a : Alert) : AdapterRun :=
  let r := p a
  { result := r
    panicRecovered := r.panicked
    panicLogged := r.panicked
    escapedPanic := false }

/-- Observable outcome of one Registry.ProcessAlert call: whether the
empty-registry warning was logged, the per-adapter runs (one per
registered adapter, all finished before the call returns because of
wg.Wait), the total counter deltas, and whether a panic escaped the
dispatch. -/
structure DispatchOutput where
  warnedNoProcessors : Bool
  runs : List AdapterRun
  processedDelta : Nat
  errorsDelta : Nat
  escapedPanic : Bool
deriving Repr, DecidableEq

/-- Registry.ProcessAlert of processors/registry.go: with no registered
adapters, log a warning and return; otherwise launch one goroutine per
adapter (each wrapped with recover) and wg.Wait for all of them.  The
run list collects every adapter's completed run — wg.Wait guarantees
they have all finished when the call returns. -/
def Registry.ProcessAlert (r : Registry) (alert : Alert) : DispatchOutput :=
  if r.length = 0 then
    { warnedNoProcessors := true, runs := [], processedDelta := 0
      errorsDelta := 0, escapedPanic := false }
  else
    let runs := r.map (fun p => runAdapter p alert)
    { warnedNoProcessors := false
      runs := runs
      processedDelta := (runs.map (fun run => run.result.processedDelta)).sum
      errorsDelta := (runs.map (fun run => run.result.errorsDelta)).sum
      escapedPanic := runs.any (fun run => run.escapedPanic) }

/-!  Destination adapters (processors/slack.go, webhook.go, pagerduty.go,
email.go, basicprocessor.go).  The network is external: each send helper
takes the outcome of the underlying HTTP POST or SMTP call as a
parameter (Except.error = transport failure, Except.ok resp = a
response) and applies the source's status check.  json.Marshal of the
fixed message types cannot fail, so the marshal error branches of the
send helpers are unreachable and not separately parameterized. -/

/-- An HTTP response as far as the adapters inspect it: its status code. -/
structure HttpResp where
  statusCode : Nat
deriving Repr, DecidableEq

/-- Effects of one adapter Process call: counter deltas, how many
transmission attempts were made, and whether an error was logged.  The
type has no error component — Process has no error return. -/
structure ProcessEffects where
  processedDelta : Nat
  errorsDelta : Nat
  sendAttempts : Nat
  loggedError : Bool
deriving Repr, DecidableEq

/-- SlackProcessor.sendToSlack (slack.go lines 151-168) applied to the
outcome of client.Post: transport error fails, and any status other
than 200 OK fails. -/
def sendToSlack (net : Except String HttpResp) : Except String Unit :=
  match net with
  | .error e => .error ("failed to send request to Slack: " ++ e)
  | .ok resp =>
    if resp.statusCode ≠ 200 then .error "slack returned non-OK status"
    else .ok ()

/-- WebhookProcessor.sendToWebhook (webhook.go lines 72-99) applied to
the outcome of client.Do: transport error fails, and any status outside
2xx fails. -/
def sendToWebhook (net : Except String HttpResp) : Except String Unit :=
  match net with
  | .error e => .error ("failed to send request to webhook: " ++ e)
  | .ok resp =>
    if resp.statusCode < 200 ∨ 300 ≤ resp.statusCode then
      .error "webhook returned non-2xx status"
    else .ok ()

/-- PagerDutyProcessor.sendToPagerDuty (pagerduty.go lines 161-178)
applied to the outcome of client.Post: transport error fails, and any
status other than 202 Accepted fails. -/
def sendToPagerDuty (net : Except String HttpResp) : Except String Unit :=
  match net with
  | .error e => .error ("failed to send request to PagerDuty: " ++ e)
  | .ok resp =>
    if resp.statusCode ≠ 202 then .error "pagerduty returned non-202 status"
    else .ok ()

/-- SlackProcessor.Process (slack.go lines 72-88): build the message,
send it once; on send error log it and increment AlertsProcessingErrors,
otherwise increment AlertsProcessed.  No retry, no error return. -/
def SlackProcessor.Process (net : Except String HttpResp) (_alert : Alert) :
    ProcessEffects :=
  match sendToSlack net with
  | .error _ => ⟨0, 1, 1, true⟩
  | .ok _ => ⟨1, 0, 1, false⟩

/-- WebhookProcessor.Process (webhook.go lines 54-69): same contract as
the Slack adapter with the webhook send. -/
def WebhookProcessor.Process (net : Except String HttpResp) (_alert : Alert) :
    ProcessEffects :=
  match sendToWebhook net with
  | .error _ => ⟨0, 1, 1, true⟩
  | .ok _ => ⟨1, 0, 1, false⟩

/-- PagerDutyProcessor.Process (pagerduty.go lines 78-94): same contract
with the PagerDuty send. -/
def PagerDutyProcessor.Process (net : Except String HttpResp) (_alert : Alert) :
    ProcessEffects :=
  match sendToPagerDuty net with
  | .error _ => ⟨0, 1, 1, true⟩
  | .ok _ => ⟨1, 0, 1, false⟩

/-- EmailProcessor.Process (email.go lines 80-94): smtp.SendMail's
outcome is the transmission outcome; on error log and count an error,
otherwise count a processed alert. -/
def EmailProcessor.Process (send : Except String Unit) (_alert : Alert) :
    ProcessEffects :=
  match send with
  | .error _ => ⟨0, 1, 1, true⟩
  | .ok _ => ⟨1, 0, 1, false⟩


/-- Log action of BasicProcessor.Process: which branch of the severity
switch was taken. -/
inductive BasicLogAction where
  | noSeverityWarning
  | criticalLogged
  | warningLogged
  | unknownSeverityWarning (s : String)
deriving Repr, DecidableEq

/-- BasicProcessor.Process (processors/basicprocessor.go lines 14-31):
look up the severity label; warn when absent; log the critical or
warning branch, or warn on an unknown severity.  It performs no
transmission and touches no counter. -/
def BasicProcessor.Process (alert : Alert) : BasicLogAction × ProcessEffects :=
  match mapGetOk alert.labels "severity" with
  | none => (.noSeverityWarning, ⟨0, 0, 0, false⟩)
  | some severity =>
    if severity = "critical" then (.criticalLogged, ⟨0, 0, 0, false⟩)
    else if severity = "warning" then (.warningLogged, ⟨0, 0, 0, false⟩)
    else (.unknownSeverityWarning severity, ⟨0, 0, 0, false⟩)

/-!  PagerDuty event construction (processors/pagerduty.go). -/

/-- PagerDutyProcessor configuration captured at construction. -/
structure PagerDutyProcessor where
  integrationKey : String
  apiEndpoint : String
deriving Repr, DecidableEq

/-- Payload of a PagerDuty Events API v2 event, as built by
buildPagerDutyEvent (component, group and class are never set there and
are omitted). -/
structure PagerDutyPayload where
  summary : String
  source : String
  severity : String
  timestamp : String
  customDetails : StrMap
deriving Repr, DecidableEq

/-- A link attached to a PagerDuty event. -/
structure PagerDutyLink where
  href : String
  text : String
deriving Repr, DecidableEq

/-- A PagerDuty Events API v2 event as built by buildPagerDutyEvent
(images are never set there and are omitted). -/
structure PagerDutyEvent where
  routingKey : String
  eventAction : String
  dedupKey : String
  payload : PagerDutyPayload
  links : List PagerDutyLink
deriving Repr, DecidableEq

/-- PagerDutyProcessor.mapSeverity (pagerduty.go lines 181-192): pass
critical, warning and info through, map everything else to error. -/
def PagerDutyProcessor.mapSeverity (severity : String) : String :=
  if severity = "critical" then "critical"
  else if severity = "warning" then "warning"
  else if severity = "info" then "info"
  else "error"

/-- PagerDutyProcessor.buildPagerDutyEvent (pagerduty.go lines 97-158).
The wall clock is a parameter: now stands for
time.Now().Format(time.RFC3339). -/
def PagerDutyProcessor.buildPagerDutyEvent (pdp : PagerDutyProcessor) (now : String)
    (alert : Alert) : PagerDutyEvent :=
  let eventAction := if alert.status = "resolved" then "resolve" else "trigger"
  let summary0 := mapGet alert.annotations "summary"
  let summary1 := if summary0 = "" then mapGet alert.annotations "description" else summary0
  let summary :=
    if summary1 = "" then "Alert: " ++ mapGet alert.labels "alertname" else summary1
  let severity := PagerDutyProcessor.mapSeverity (mapGet alert.labels "severity")
  let customDetails :=
    alert.annotations.foldl
      (fun m kv => insertStr m ("annotation_" ++ kv.fst) kv.snd)
      (alert.labels.foldl (fun m kv => insertStr m kv.fst kv.snd) [])
  let dedupKey :=
    if alert.fingerprint = "" then
      mapGet alert.labels "alertname" ++ "-" ++ mapGet alert.labels "instance"
    else alert.fingerprint
  let payload : PagerDutyPayload :=
    { summary := summary
      source := mapGet alert.labels "instance"
      severity := severity
      timestamp := now
      customDetails := customDetails }
  let links :=
    if alert.generatorURL ≠ "" then
      [{ href := alert.generatorURL, text := "View in Prometheus" : PagerDutyLink }]
    else []
  { routingKey := pdp.integrationKey
    eventAction := eventAction
    dedupKey := dedupKey
    payload := payload
    links := links }

/-!  Concrete inputs used to instantiate the theorems. -/

/-- A concrete firing alert (the one of the handler test). -/
def sampleAlert : Alert :=
  { status := "firing"
    labels := [("alertname", "TestAlert"), ("severity", "critical")]
    annotations := [("description", "Test description")] }

/-- The JSON object encoding sampleAlert. -/
def sampleAlertJson : Json :=
  .obj [("status", .str "firing"),
        ("labels", .obj [("alertname", .str "TestAlert"), ("severity", .str "critical")]),
        ("annotations", .obj [("description", .str "Test description")])]

/-- A concrete adapter whose Process completes and counts one processed
alert. -/
def okProc : AlertProcessor := fun _ => { processedDelta := 1 }

/-- A concrete adapter whose Process panics before touching any
counter. -/
def panicProc : AlertProcessor := fun _ => { panicked := true }

/-- An AlertGroup envelope object whose alerts member is the empty
array. -/
def emptyEnvelopeJson : Json := .obj [("alerts", .arr [])]

/-!  Claim theorems. -/

/-- C1: a POST to /alerts whose body is a valid AlertGroup envelope with
a non-empty alerts field, or a valid non-empty JSON array of Alerts,
gets a 200 response with body status "success", message "Alerts received
and processed" and count N equal to the number of alerts, and the
received counter is incremented by exactly N (okOutput also records that
every alert is dispatched and the duration observed). -/
theorem c1_post_valid_alerts_success :
    (∀ j msg, decodeAlertMessage j = Except.ok msg → msg.alerts ≠ [] →
      serveHTTP "POST" (Except.ok (some j)) = okOutput msg.alerts)
    ∧ (∀ j as, decodeAlertList j = Except.ok as → as ≠ [] →
      serveHTTP "POST" (Except.ok (some j)) = okOutput as) := by
  constructor
  · intro j msg h hne
    have hlen : msg.alerts.length > 0 := List.length_pos.mpr hne
    simp [serveHTTP, h, hlen]
  · intro j as h hne
    have hlen : as.length ≠ 0 := fun hc => hne (List.length_eq_zero.mp hc)
    cases j with
    | null =>
      simp only [decodeAlertList] at h
      injection h with h
      exact absurd h.symm hne
    | bool b => simp [decodeAlertList] at h
    | num n => simp [decodeAlertList] at h
    | str s => simp [decodeAlertList] at h
    | obj fields => simp [decodeAlertList] at h
    | arr es =>
      have hmsg : decodeAlertMessage (Json.arr es) = Except.error () := rfl
      simp [serveHTTP, hmsg, handleArrayPath, h, hlen]

/-- C1 witness: the sample one-alert array body gets the 200 success
output with count 1. -/
theorem c1_witness :
    serveHTTP "POST" (Except.ok (some (Json.arr [sampleAlertJson]))) = okOutput [sampleAlert] :=
  c1_post_valid_alerts_success.2 (Json.arr [sampleAlertJson]) [sampleAlert] rfl
    (List.cons_ne_nil _ _)

/-- C2: dispatching one alert through a registry with at least one
registered adapter produces exactly one completed run per adapter, each
the run of that adapter on that alert (the run list collects the results
the call waits for before returning). -/
theorem c2_dispatch_invokes_all :
    ∀ (r : Registry) (a : Alert), r ≠ [] →
      (Registry.ProcessAlert r a).runs = r.map (fun p => runAdapter p a)
      ∧ (Registry.ProcessAlert r a).runs.length = r.length := by
  intro r a hne
  have hlen : r.length ≠ 0 := fun hc => hne (List.length_eq_zero.mp hc)
  constructor
  · simp [Registry.ProcessAlert, hlen]
  · simp [Registry.ProcessAlert, hlen]

/-- C2 witness: a one-adapter registry yields exactly that adapter's
run. -/
theorem c2_witness :
    (Registry.ProcessAlert [okProc] sampleAlert).runs
      = [okProc].map (fun p => runAdapter p sampleAlert)
    ∧ (Registry.ProcessAlert [okProc] sampleAlert).runs.length = [okProc].length :=
  c2_dispatch_invokes_all [okProc] sampleAlert (List.cons_ne_nil _ _)

/-- C3 counterexample: dispatching to a panicking adapter next to a
healthy sibling recovers and logs the panic and both adapters run, but
the processing-error counter delta of the dispatch is 0 — the recover
boundary does not increment it, contrary to the claim. -/
theorem c3_counterexample :
    (Registry.ProcessAlert [panicProc, okProc] sampleAlert).errorsDelta = 0
    ∧ (runAdapter panicProc sampleAlert).panicRecovered = true
    ∧ (runAdapter panicProc sampleAlert).panicLogged = true
    ∧ (Registry.ProcessAlert [panicProc, okProc] sampleAlert).runs.length = 2
    ∧ (Registry.ProcessAlert [panicProc, okProc] sampleAlert).escapedPanic = false := by
  exact ⟨rfl, rfl, rfl, rfl, rfl⟩

/-- C3 (amended): a panic in one adapter's Process is caught at that
adapter's invocation boundary and logged, dispatch itself returns
normally without panicking, every sibling adapter's run still completes,
and the dispatch adds only the adapters' own error-counter deltas — the
panic boundary itself increments no counter. -/
theorem c3_panic_isolation :
    ∀ (r : Registry) (a : Alert) (p : AlertProcessor), p ∈ r → (p a).panicked = true →
      (Registry.ProcessAlert r a).escapedPanic = false
      ∧ (Registry.ProcessAlert r a).runs = r.map (fun q => runAdapter q a)
      ∧ (runAdapter p a).panicRecovered = true
      ∧ (runAdapter p a).panicLogged = true
      ∧ (Registry.ProcessAlert r a).errorsDelta
          = (r.map (fun q => (q a).errorsDelta)).sum := by
  intro r a p hmem hpan
  have hlen : r.length ≠ 0 := by
    intro hc
    rw [List.length_eq_zero] at hc
    subst hc
    simp at hmem
  refine ⟨?_, ?_, ?_, ?_, ?_⟩
  · simp [Registry.ProcessAlert, hlen, runAdapter]
  · simp [Registry.ProcessAlert, hlen]
  · simp [runAdapter, hpan]
  · simp [runAdapter, hpan]
  · simp [Registry.ProcessAlert, hlen, List.map_map]
    rfl

/-- C3 witness: the panicking adapter next to a healthy one, with every
conclusion of the amended theorem instantiated. -/
theorem c3_witness :
    (Registry.ProcessAlert [panicProc, okProc] sampleAlert).escapedPanic = false
    ∧ (Registry.ProcessAlert [panicProc, okProc] sampleAlert).runs
        = [panicProc, okProc].map (fun q => runAdapter q sampleAlert)
    ∧ (runAdapter panicProc sampleAlert).panicRecovered = true
    ∧ (runAdapter panicProc sampleAlert).panicLogged = true
    ∧ (Registry.ProcessAlert [panicProc, okProc] sampleAlert).errorsDelta
        = ([panicProc, okProc].map (fun q => (q sampleAlert).errorsDelta)).sum :=
  c3_panic_isolation [panicProc, okProc] sampleAlert panicProc (List.mem_cons_self _ _) rfl

/-- C4 counterexample: a body that is not well-formed JSON (such as the
bytes "invalid json") gets a 400 whose error message is the source's
"Invalid JSON format", not the claimed lowercase "invalid JSON format". -/
theorem c4_counterexample :
    (serveHTTP "POST" (Except.ok none)).statusCode = 400
    ∧ (serveHTTP "POST" (Except.ok none)).body = RespBody.error "Invalid JSON format"
    ∧ (serveHTTP "POST" (Except.ok none)).body ≠ RespBody.error "invalid JSON format" := by
  refine ⟨rfl, rfl, by decide⟩

/-- C4 (amended): a POST body that decodes neither as an AlertGroup
envelope with a non-empty alerts list nor as a JSON array of Alerts —
including bytes that are not well-formed JSON at all, such as
"invalid json" — gets 400 with the error envelope whose message is
"Invalid JSON format". -/
theorem c4_invalid_format :
    (serveHTTP "POST" (Except.ok none) = errOutput 400 "Invalid JSON format")
    ∧ (∀ j, (∀ msg, decodeAlertMessage j = Except.ok msg → msg.alerts = []) →
        decodeAlertList j = Except.error () →
        serveHTTP "POST" (Except.ok (some j)) = errOutput 400 "Invalid JSON format") := by
  constructor
  · rfl
  · intro j henv harr
    cases hd : decodeAlertMessage j with
    | ok msg =>
      have hempty : msg.alerts = [] := henv msg hd
      simp [serveHTTP, hd, hempty, handleArrayPath, harr]
    | error e =>
      simp [serveHTTP, hd, handleArrayPath, harr]

/-- C4 witness: a JSON string body decodes as neither shape and gets the
400 invalid-format envelope. -/
theorem c4_witness :
    serveHTTP "POST" (Except.ok (some (Json.str "x"))) = errOutput 400 "Invalid JSON format" :=
  c4_invalid_format.2 (Json.str "x")
    (by intro msg h; simp [decodeAlertMessage] at h) rfl

/-- C5 counterexample: the body "[]" gets a 400 whose error message is
the source's "No alerts in request", not the claimed lowercase
"no alerts in request". -/
theorem c5_counterexample :
    (serveHTTP "POST" (Except.ok (some (Json.arr [])))).statusCode = 400
    ∧ (serveHTTP "POST" (Except.ok (some (Json.arr [])))).body
        = RespBody.error "No alerts in request"
    ∧ (serveHTTP "POST" (Except.ok (some (Json.arr [])))).body
        ≠ RespBody.error "no alerts in request" := by
  refine ⟨rfl, rfl, by decide⟩

/-- C5 (amended): the empty direct array body gets 400 with message
"No alerts in request", and a valid AlertGroup envelope whose alerts
list is empty falls through to direct-array decoding and also converges
on a 400 response with no received-counter increment. -/
theorem c5_empty_alerts :
    (serveHTTP "POST" (Except.ok (some (Json.arr []))) = errOutput 400 "No alerts in request")
    ∧ (∀ j msg, decodeAlertMessage j = Except.ok msg → msg.alerts = [] →
        (serveHTTP "POST" (Except.ok (some j))).statusCode = 400
        ∧ (serveHTTP "POST" (Except.ok (some j))).receivedDelta = 0) := by
  constructor
  · rfl
  · intro j msg hd hempty
    cases j with
    | null => exact ⟨rfl, rfl⟩
    | bool b => simp [decodeAlertMessage] at hd
    | num n => simp [decodeAlertMessage] at hd
    | str s => simp [decodeAlertMessage] at hd
    | arr es => simp [decodeAlertMessage] at hd
    | obj fields =>
      have harr : decodeAlertList (Json.obj fields) = Except.error () := rfl
      constructor
      · simp [serveHTTP, hd, hempty, handleArrayPath, harr, errOutput]
      · simp [serveHTTP, hd, hempty, handleArrayPath, harr, errOutput]

/-- C5 witness: an envelope with an empty alerts array converges on 400
with no received-counter increment. -/
theorem c5_witness :
    (serveHTTP "POST" (Except.ok (some emptyEnvelopeJson))).statusCode = 400
    ∧ (serveHTTP "POST" (Except.ok (some emptyEnvelopeJson))).receivedDelta = 0 :=
  c5_empty_alerts.2 emptyEnvelopeJson {} rfl rfl

/-- C6: a non-POST request to /alerts gets 405 with the error envelope,
and the outcome does not depend on the request body at all — the body is
never read. -/
theorem c6_method_not_allowed :
    ∀ (m : String) (b b2 : Except Unit (Option Json)), m ≠ "POST" →
      serveHTTP m b = errOutput 405 "Only POST method is allowed"
      ∧ serveHTTP m b = serveHTTP m b2 := by
  intro m b b2 hm
  constructor
  · simp [serveHTTP, hm]
  · simp [serveHTTP, hm]

/-- C6 witness: a GET gets 405 regardless of the body. -/
theorem c6_witness :
    serveHTTP "GET" (Except.ok none) = errOutput 405 "Only POST method is allowed"
    ∧ serveHTTP "GET" (Except.ok none) = serveHTTP "GET" (Except.error ()) :=
  c6_method_not_allowed "GET" (Except.ok none) (Except.error ()) (by decide)

/-- C7: dispatching through an empty registry logs the warning, invokes
nothing, leaves the processed counter unchanged and returns normally. -/
theorem c7_empty_registry_noop :
    ∀ a : Alert,
      (Registry.ProcessAlert [] a).warnedNoProcessors = true
      ∧ (Registry.ProcessAlert [] a).runs = []
      ∧ (Registry.ProcessAlert [] a).processedDelta = 0
      ∧ (Registry.ProcessAlert [] a).escapedPanic = false := by
  intro a
  exact ⟨rfl, rfl, rfl, rfl⟩

/-- Shape lemma: every ServeHTTP outcome is a success output for some
alert list or an error output. -/
theorem serveHTTP_shape (m : String) (b : Except Unit (Option Json)) :
    (∃ as, serveHTTP m b = okOutput as) ∨ (∃ c s, serveHTTP m b = errOutput c s) := by
  by_cases hm : m = "POST"
  · subst hm
    cases b with
    | error e => exact Or.inr ⟨400, "Error reading request body", rfl⟩
    | ok ob =>
      cases ob with
      | none => exact Or.inr ⟨400, "Invalid JSON format", rfl⟩
      | some j =>
        have harr : (∃ as, handleArrayPath j = okOutput as)
            ∨ (∃ c s, handleArrayPath j = errOutput c s) := by
          cases ha : decodeAlertList j with
          | error e => exact Or.inr ⟨400, "Invalid JSON format", by simp [handleArrayPath, ha]⟩
          | ok as =>
            by_cases hz : as.length = 0
            · exact Or.inr ⟨400, "No alerts in request", by simp [handleArrayPath, ha, hz]⟩
            · exact Or.inl ⟨as, by simp [handleArrayPath, ha, hz]⟩
        cases hd : decodeAlertMessage j with
        | ok msg =>
          by_cases hl : msg.alerts.length > 0
          · exact Or.inl ⟨msg.alerts, by simp [serveHTTP, hd, hl]⟩
          · have hrw : serveHTTP "POST" (Except.ok (some j)) = handleArrayPath j := by
              simp [serveHTTP, hd, hl]
            rw [hrw]
            exact harr
        | error e =>
          have hrw : serveHTTP "POST" (Except.ok (some j)) = handleArrayPath j := by
            simp [serveHTTP, hd]
          rw [hrw]
          exact harr
  · exact Or.inr ⟨405, "Only POST method is allowed", by simp [serveHTTP, hm]⟩

/-- C8: every non-200 (error) response of the handler leaves the
received counter unchanged, observes nothing into the duration
histogram, and dispatches no alert to any adapter. -/
theorem c8_no_side_effects_on_error :
    ∀ (m : String) (b : Except Unit (Option Json)),
      (serveHTTP m b).statusCode ≠ 200 →
      (serveHTTP m b).receivedDelta = 0
      ∧ (serveHTTP m b).durationObserved = false
      ∧ (serveHTTP m b).dispatched = [] := by
  intro m b h
  rcases serveHTTP_shape m b with ⟨as, hs⟩ | ⟨c, s, hs⟩
  · rw [hs] at h
    exact absurd rfl h
  · rw [hs]
    exact ⟨rfl, rfl, rfl⟩

/-- C8 witness: the 405 response of a GET has no side effects. -/
theorem c8_witness :
    (serveHTTP "GET" (Except.ok none)).receivedDelta = 0
    ∧ (serveHTTP "GET" (Except.ok none)).durationObserved = false
    ∧ (serveHTTP "GET" (Except.ok none)).dispatched = [] :=
  c8_no_side_effects_on_error "GET" (Except.ok none) (by decide)

/-- Boolean success test on an Except value. -/
def isOkE {ε α : Type} : Except ε α → Bool
  | .ok _ => true
  | .error _ => false

/-- C9: each transmitting adapter variant counts one processed alert
when its send succeeds, and on send failure (transport error or bad
status) logs the error and counts one processing error instead; every
variant makes exactly one transmission attempt (no retry) and its
Process returns effects only — there is no error to propagate.  The
basic logging-only variant makes no transmission attempt and touches
neither counter. -/
theorem c9_adapter_effects :
    ∀ (net : Except String HttpResp) (send : Except String Unit) (a : Alert),
      SlackProcessor.Process net a
        = (if isOkE (sendToSlack net) then ⟨1, 0, 1, false⟩ else (⟨0, 1, 1, true⟩ : ProcessEffects))
      ∧ WebhookProcessor.Process net a
        = (if isOkE (sendToWebhook net) then ⟨1, 0, 1, false⟩ else (⟨0, 1, 1, true⟩ : ProcessEffects))
      ∧ PagerDutyProcessor.Process net a
        = (if isOkE (sendToPagerDuty net) then ⟨1, 0, 1, false⟩ else (⟨0, 1, 1, true⟩ : ProcessEffects))
      ∧ EmailProcessor.Process send a
        = (if isOkE send then ⟨1, 0, 1, false⟩ else (⟨0, 1, 1, true⟩ : ProcessEffects))
      ∧ (BasicProcessor.Process a).snd = (⟨0, 0, 0, false⟩ : ProcessEffects) := by
  intro net send a
  refine ⟨?_, ?_, ?_, ?_, ?_⟩
  · unfold SlackProcessor.Process
    cases hs : sendToSlack net with
    | ok u => simp [hs, isOkE]
    | error e => simp [hs, isOkE]
  · unfold WebhookProcessor.Process
    cases hs : sendToWebhook net with
    | ok u => simp [hs, isOkE]
    | error e => simp [hs, isOkE]
  · unfold PagerDutyProcessor.Process
    cases hs : sendToPagerDuty net with
    | ok u => simp [hs, isOkE]
    | error e => simp [hs, isOkE]
  · unfold EmailProcessor.Process
    cases send with
    | ok u => simp [isOkE]
    | error e => simp [isOkE]
  · unfold BasicProcessor.Process
    cases mapGetOk a.labels "severity" with
    | none => rfl
    | some s =>
      by_cases h1 : s = "critical"
      · simp [h1]
      · by_cases h2 : s = "warning"
        · simp [h1, h2]
        · simp [h1, h2]

/-- C10: the PagerDuty event built for an alert has event action
"resolve" exactly when the alert status is "resolved" and "trigger"
otherwise; its dedup key is the fingerprint when non-empty and otherwise
the "alertname-instance" string built from the labels; and the payload
severity is the severity label's value for critical, warning and info
and "error" for every other value, including the absent label (which Go
map indexing reads as ""). -/
theorem c10_pagerduty_event_fields :
    ∀ (pdp : PagerDutyProcessor) (now : String) (alert : Alert),
      (pdp.buildPagerDutyEvent now alert).eventAction
        = (if alert.status = "resolved" then "resolve" else "trigger")
      ∧ (pdp.buildPagerDutyEvent now alert).dedupKey
        = (if alert.fingerprint = "" then
             mapGet alert.labels "alertname" ++ "-" ++ mapGet alert.labels "instance"
           else alert.fingerprint)
      ∧ (pdp.buildPagerDutyEvent now alert).payload.severity
        = (if mapGet alert.labels "severity" = "critical"
             ∨ mapGet alert.labels "severity" = "warning"
             ∨ mapGet alert.labels "severity" = "info"
           then mapGet alert.labels "severity" else "error") := by
  intro pdp now alert
  refine ⟨rfl, rfl, ?_⟩
  unfold PagerDutyProcessor.buildPagerDutyEvent PagerDutyProcessor.mapSeverity
  by_cases h1 : mapGet alert.labels "severity" = "critical"
  · simp [h1]
  · by_cases h2 : mapGet alert.labels "severity" = "warning"
    · simp [h1, h2]
    · by_cases h3 : mapGet alert.labels "severity" = "info"
      · simp [h1, h2, h3]
      · simp [h1, h2, h3]
